import Mathlib

/-!
Shallow embedding of the video-platform backend (Express + Mongoose tutorial
app): user records, JWT access/refresh tokens, the auth controllers
(registerUser, loginUser, logoutUser, refreshAccessToken), the verifyJWT
middleware, the route table, the app middleware stack with its error-shape
middleware, and the watch-history aggregation pipeline.

Conventions of the embedding:
  - MongoDB collections are Lean lists of records; `findById` and `findOne`
    return the first matching document, `save` replaces the document with the
    same id in place.
  - JWTs are modelled as structured values carrying their payload, signing
    secret, issue time and lifetime; two tokens are equal exactly when all of
    these coincide (injective serialisation). `jwt.verify` succeeds when the
    secret matches and the token is not expired.
  - bcrypt is modelled as an injective tagging function; `bcrypt.compare`
    checks the candidate against the stored hash.
  - Thrown JS errors are `Err`: either an `ApiError` (statusCode + message)
    or a `TypeError`-like error with no statusCode.
  - Each controller takes the database and returns the (possibly updated)
    database paired with an `Except Err` result, mirroring that a JS throw
    aborts the handler while any database writes already performed persist.
-/

/-- A JS error thrown by the backend: an ApiError carries a statusCode,
a TypeError-like runtime error carries none. -/
inductive Err where
  | api (statusCode : Nat) (message : String)
  | typeError (message : String)
deriving DecidableEq, Repr

/-- `err.statusCode` as read by the error middleware: present on ApiError,
undefined on a plain runtime error. -/
def Err.statusCodeField : Err → Option Nat
  | .api s _ => some s
  | .typeError _ => none

/-- `err.message`. -/
def Err.messageField : Err → String
  | .api _ m => m
  | .typeError m => m

/-- JWT payload: `_id` always present; email/username/fullName are present in
access tokens and absent in refresh tokens, as in the schema methods. -/
structure Payload where
  userId : Nat
  email : Option String
  username : Option String
  fullName : Option String
deriving DecidableEq, Repr

/-- A signed JWT, modelled structurally: payload, signing secret, issue time
(iat) and lifetime (expiresIn). Serialisation is injective, so string
equality of JWTs is equality of these fields. -/
structure Token where
  payload : Payload
  secret : String
  iat : Nat
  lifetime : Nat
deriving DecidableEq, Repr

/-- Environment configuration: the two JWT secrets and expiries. -/
structure Cfg where
  accessTokenSecret : String
  refreshTokenSecret : String
  accessTokenExpiry : Nat
  refreshTokenExpiry : Nat
deriving DecidableEq, Repr

/-- `jwt.verify(token, secret)` at time `now`: fails on a wrong signature or
an expired token, otherwise returns the decoded payload. -/
def jwtVerify (t : Token) (secret : String) (now : Nat) : Except String Payload :=
  if t.secret ≠ secret then .error "invalid signature"
  else if t.iat + t.lifetime ≤ now then .error "jwt expired"
  else .ok t.payload

/-- bcrypt hashing, modelled as injective tagging. -/
def bcryptHash (p : String) : String := "bcrypt." ++ p

/-- `bcrypt.compare(candidate, storedHash)`. -/
def bcryptCompare (candidate storedHash : String) : Bool :=
  bcryptHash candidate == storedHash

/-- A document of the users collection. `refreshToken` is `none` when the
field is unset (logout uses `$unset`); `watchHistory` is the stored ordered
list of video ObjectIds. -/
structure UserRec where
  id : Nat
  username : String
  email : String
  fullName : String
  password : String
  avatar : String
  coverImage : String
  refreshToken : Option Token
  watchHistory : List Nat
deriving DecidableEq, Repr

/-- The users collection. -/
abbrev Db := List UserRec

/-- `User.findById(id)`: first document with the given `_id`. -/
def findById (db : Db) (id : Nat) : Option UserRec :=
  List.find? (fun u => u.id == id) db

/-- `User.findOne({$orInBraces})` over username/email: first document whose
username or email equals a provided (defined) request field; an absent
request field matches nothing. -/
def findByUsernameOrEmail (db : Db) (username email : Option String) : Option UserRec :=
  List.find? (fun u => username == some u.username || email == some u.email) db

/-- `user.save()`: replace the document with the same `_id`. -/
def saveUser (db : Db) (u : UserRec) : Db :=
  List.map (fun v => if v.id == u.id then u else v) db

/-- `userSchema.methods.generateAccessToken`: signs `_id`, email, username,
fullName with the access secret and expiry. -/
def generateAccessToken (cfg : Cfg) (u : UserRec) (now : Nat) : Token :=
  { payload := { userId := u.id, email := some u.email,
                 username := some u.username, fullName := some u.fullName },
    secret := cfg.accessTokenSecret, iat := now, lifetime := cfg.accessTokenExpiry }

/-- `userSchema.methods.generateRefreshToken`: signs only `_id` with the
refresh secret and expiry. -/
def generateRefreshToken (cfg : Cfg) (u : UserRec) (now : Nat) : Token :=
  { payload := { userId := u.id, email := none, username := none, fullName := none },
    secret := cfg.refreshTokenSecret, iat := now, lifetime := cfg.refreshTokenExpiry }

/-- `userSchema.methods.isPasswordCorrect`: bcrypt.compare against the stored
hash. -/
def UserRec.isPasswordCorrect (u : UserRec) (candidate : String) : Bool :=
  bcryptCompare candidate u.password

/-- `generateAccessAndRefereshTokens(userId)` (name kept from the source,
typo included): finds the user, generates both tokens, stores the new refresh
token on the user record and saves it. Any failure inside the try block
(user not found makes the method calls throw) is converted by the catch into
`ApiError(500, ...)`. Returns the updated database plus the token pair. -/
def generateAccessAndRefereshTokens (cfg : Cfg) (db : Db) (now : Nat) (userId : Nat) :
    Db × Except Err (Token × Token) :=
  match findById db userId with
  | none =>
      (db, .error (.api 500 "Something went wrong while generating referesh and access token"))
  | some user =>
      let accessToken := generateAccessToken cfg user now
      let refreshToken := generateRefreshToken cfg user now
      let user' : UserRec := { user with refreshToken := some refreshToken }
      (saveUser db user', .ok (accessToken, refreshToken))

/-- The catch block of `refreshAccessToken`: any error thrown inside the try
is rethrown as `ApiError(401, error.message or fallback)`. -/
def wrap401 (e : Err) : Err :=
  .api 401 (if e.messageField = "" then "Invalid refresh token" else e.messageField)

/-- `refreshAccessToken`: reads the incoming refresh token from the cookie or
the body, fails 401 when absent; inside the try block it verifies the token
against the refresh secret, loads the user by the decoded `_id`, requires the
presented token to equal the stored one, and only then rotates the pair via
`generateAccessAndRefereshTokens`; every error thrown inside the try is
converted to a 401 by the catch. -/
def refreshAccessToken (cfg : Cfg) (db : Db) (now : Nat)
    (cookieToken bodyToken : Option Token) : Db × Except Err (Token × Token) :=
  match cookieToken <|> bodyToken with
  | none => (db, .error (.api 401 "unauthorized request"))
  | some incoming =>
      match jwtVerify incoming cfg.refreshTokenSecret now with
      | .error m => (db, .error (wrap401 (.typeError m)))
      | .ok decoded =>
          match findById db decoded.userId with
          | none => (db, .error (wrap401 (.api 401 "Invalid refresh token")))
          | some user =>
              if user.refreshToken ≠ some incoming then
                (db, .error (wrap401 (.api 401 "Refresh token is expired or used")))
              else
                match generateAccessAndRefereshTokens cfg db now user.id with
                | (db', .error e) => (db', .error (wrap401 e))
                | (db', .ok (accessToken, refreshToken)) => (db', .ok (accessToken, refreshToken))

/-- A login request body; absent fields are `none`. -/
structure LoginReq where
  username : Option String
  email : Option String
  password : String
deriving DecidableEq, Repr

/-- `loginUser`: requires username or email, finds the user, then logs
`user._id` (which crashes with a TypeError when no user was found, before the
404 guard is reached), checks the password with bcrypt, and on success rotates
tokens via `generateAccessAndRefereshTokens` and returns the pair. -/
def loginUser (cfg : Cfg) (db : Db) (now : Nat) (req : LoginReq) :
    Db × Except Err (Token × Token) :=
  if req.username = none ∧ req.email = none then
    (db, .error (.api 400 "username or email is required"))
  else
    match findByUsernameOrEmail db req.username req.email with
    | none =>
        (db, .error (.typeError "Cannot read properties of null (reading _id)"))
    | some user =>
        if user.isPasswordCorrect req.password = false then
          (db, .error (.api 401 "Invalid user credentials, Wrong Password!!!!!!"))
        else
          match generateAccessAndRefereshTokens cfg db now user.id with
          | (db', .error e) => (db', .error e)
          | (db', .ok (accessToken, refreshToken)) => (db', .ok (accessToken, refreshToken))

/-- Cookies cleared by a response. -/
structure LogoutResponse where
  status : Nat
  clearedCookies : List String
deriving DecidableEq, Repr

/-- `logoutUser`: `findByIdAndUpdate` with `$unset refreshToken` removes the
stored refresh token of the authenticated user, then both token cookies are
cleared. -/
def logoutUser (db : Db) (userId : Nat) : Db × LogoutResponse :=
  (List.map (fun v => if v.id == userId then { v with refreshToken := none } else v) db,
   { status := 200, clearedCookies := ["accessToken", "refreshToken"] })

/-- `verifyJWT` middleware: token from the accessToken cookie or the Bearer
Authorization header; 401 when absent; verified against the access secret;
the user is loaded by the decoded `_id`; every failure is converted to a 401
by the catch block. On success the request gains `req.user`. -/
def verifyJWT (cfg : Cfg) (db : Db) (now : Nat)
    (cookieToken headerToken : Option Token) : Except Err UserRec :=
  match cookieToken <|> headerToken with
  | none => .error (.api 401 "Unauthorized request")
  | some token =>
      match jwtVerify token cfg.accessTokenSecret now with
      | .error m => .error (.api 401 m)
      | .ok decoded =>
          match findById db decoded.userId with
          | none => .error (.api 401 "Invalid Access Token")
          | some user => .ok user

/-- A register request: text fields from the form body (absent fields are
`none`) and the multer file arrays reduced to their single allowed entry
(the stored temp path), `none` when no file was sent for that field. -/
structure RegisterReq where
  fullName : Option String
  email : Option String
  username : Option String
  password : Option String
  avatarFile : Option String
  coverImageFile : Option String
deriving DecidableEq, Repr

/-- Working directory of the server process, used by `path.resolve`. -/
def processCwd : String := "/app"

/-- Node `path.resolve(p)` on a string argument: the cwd for an empty string,
the argument itself when already absolute, otherwise cwd/argument. -/
def nodeResolveString (p : String) : String :=
  if p = "" then processCwd
  else if String.startsWith p "/" then p
  else processCwd ++ "/" ++ p

/-- Node `path.resolve(p)` as called in `registerUser`: throws a TypeError
when the argument is `null`/`undefined` instead of a string. -/
def pathResolve (p : Option String) : Except Err String :=
  match p with
  | none => .error (.typeError "The path argument must be of type string")
  | some s => .ok (nodeResolveString s)

/-- Result object of a successful cloudinary upload. -/
structure UploadedFile where
  url : String
deriving DecidableEq, Repr

/-- Fresh `_id` for `User.create`: one past the largest id in use. -/
def freshId (db : Db) : Nat :=
  List.foldr (fun u acc => max u.id acc) 0 db + 1

/-- JS String.prototype.trim, modelled structurally on the character list:
leading and trailing whitespace removed. -/
def jsTrim (s : String) : String :=
  String.mk (List.reverse (List.dropWhile Char.isWhitespace
    (List.reverse (List.dropWhile Char.isWhitespace s.data))))

/-- The four-field emptiness check of `registerUser`:
`[fullName, email, username, password].some((field) => fieldTrim === "")`
with optional chaining, so an absent field is not flagged. -/
def someFieldEmpty (req : RegisterReq) : Bool :=
  List.any [req.fullName, req.email, req.username, req.password]
    (fun f => Option.map jsTrim f == some "")

/-- `registerUser`: validates non-empty fields, rejects duplicate
username/email with 409, resolves the avatar and cover-image paths with
`path.resolve` (which throws a TypeError on a missing file before the
explicit avatar guard is reached), uploads both files, requires the avatar
upload to have succeeded, creates the user and re-reads it. `upload` models
`uploadOnCloudinary`, returning `none` on failure. -/
def registerUser (db : Db) (upload : String → Option UploadedFile) (req : RegisterReq) :
    Db × Except Err UserRec :=
  if someFieldEmpty req then
    (db, .error (.api 400 "All fields are required"))
  else
    match findByUsernameOrEmail db req.username req.email with
    | some _ => (db, .error (.api 409 "User with email or username already exists"))
    | none =>
        match pathResolve req.avatarFile with
        | .error e => (db, .error e)
        | .ok absoluteAvatarPath =>
            match pathResolve req.coverImageFile with
            | .error e => (db, .error e)
            | .ok absoluteCoverImagePath =>
                if absoluteAvatarPath = "" then
                  (db, .error (.api 400 "Avatar file path is required"))
                else
                  let avatar := upload absoluteAvatarPath
                  let coverImage := upload absoluteCoverImagePath
                  match avatar with
                  | none => (db, .error (.api 400 "Avatar file is not uploaded"))
                  | some av =>
                      let newUser : UserRec :=
                        { id := freshId db,
                          username := String.toLower (Option.getD req.username ""),
                          email := Option.getD req.email "",
                          fullName := Option.getD req.fullName "",
                          password := bcryptHash (Option.getD req.password ""),
                          avatar := av.url,
                          coverImage := Option.getD (Option.map UploadedFile.url coverImage) "",
                          refreshToken := none,
                          watchHistory := [] }
                      let db' := db ++ [newUser]
                      match findById db' newUser.id with
                      | none => (db', .error (.api 500 "Something went wrong while registering the user"))
                      | some created => (db', .ok created)

/-- One route of the user router: path, HTTP method, and the middleware/
handler chain in registration order (names as imported in route file). -/
structure Route where
  path : String
  method : String
  chain : List String
deriving DecidableEq, Repr

/-- The user router as wired in the route file (mounted under
/api/v1/users). -/
def userRoutes : List Route :=
  [ { path := "/register", method := "post",
      chain := ["upload.fields", "registerUser"] },
    { path := "/login", method := "post", chain := ["loginUser"] },
    { path := "/logout", method := "post", chain := ["verifyJWT", "logoutUser"] },
    { path := "/refresh-token", method := "post", chain := ["refreshAccessToken"] },
    { path := "/change-password", method := "post",
      chain := ["verifyJWT", "changeCurrentPassword"] },
    { path := "/current-user", method := "get", chain := ["verifyJWT", "getCurrentUser"] },
    { path := "/update-account", method := "patch",
      chain := ["verifyJWT", "updateAccountDetails"] },
    { path := "/avatar", method := "patch",
      chain := ["verifyJWT", "upload.single", "updateUserAvatar"] },
    { path := "/cover-image", method := "patch",
      chain := ["verifyJWT", "upload.single", "updateUserCoverImage"] },
    { path := "/c/:username", method := "get",
      chain := ["verifyJWT", "getUserChannelProfile"] },
    { path := "/history", method := "get", chain := ["verifyJWT", "getWatchHistory"] } ]

/-- Whether a route chain contains the verifyJWT middleware. -/
def Route.guarded (r : Route) : Bool :=
  List.contains r.chain "verifyJWT"

/-- Body of an HTTP response: the JSON error shape or an HTML error page. -/
inductive RespBody where
  | json (success : Bool) (message : String) (statusCode : Nat)
  | html (text : String)
deriving DecidableEq, Repr

/-- An HTTP response: status plus body. -/
structure HttpResponse where
  status : Nat
  body : RespBody
deriving DecidableEq, Repr

/-- The centralized error-shape middleware registered in app.js: status from
`err.statusCode` defaulting to 500, JSON body with success:false, the message
(defaulting when empty) and the statusCode. -/
def errorShapeMiddleware (e : Err) : HttpResponse :=
  let statusCode := Option.getD e.statusCodeField 500
  let message := if e.messageField = "" then "Internal Server Error" else e.messageField
  { status := statusCode, body := .json false message statusCode }

/-- The Express built-in final error handler, reached when no registered
error middleware lies after the layer that raised the error: status from a
valid `err.status`/`err.statusCode` else 500, and an HTML (non-JSON) body. -/
def expressDefaultHandler (e : Err) : HttpResponse :=
  let status :=
    match e.statusCodeField with
    | some s => if 400 ≤ s ∧ s < 600 then s else 500
    | none => 500
  { status := status, body := .html (e.messageField) }

/-- A layer of the app middleware stack: a plain (request) middleware, an
error-handling middleware (four-argument signature), or a mounted router. -/
inductive Layer where
  | plain (name : String)
  | errorHandler (h : Err → HttpResponse)
  | router (name : String)

/-- The app.js middleware stack in registration order: cors, parsers, static,
cookie parser, then the error-shape middleware, and only after it the user
router. -/
def appStack : List Layer :=
  [ .plain "cors", .plain "express.json", .plain "express.urlencoded",
    .plain "express.static", .plain "cookieParser",
    .errorHandler errorShapeMiddleware, .router "userRouter" ]

/-- Express error dispatch from a given point in the stack: the first error
handler among the remaining layers handles the error; with none left, the
built-in final handler responds. -/
def handleRaisedError : List Layer → Err → HttpResponse
  | [], e => expressDefaultHandler e
  | .errorHandler h :: _, e => h e
  | _ :: rest, e => handleRaisedError rest e

/-- Response produced when a handler inside the mounted router passes an
error to next (which asyncHandler does for every thrown error): only error
middleware registered after the router can handle it. -/
def dispatchRouterError : List Layer → Err → HttpResponse
  | [], e => expressDefaultHandler e
  | .router _ :: rest, e => handleRaisedError rest e
  | _ :: rest, e => dispatchRouterError rest e

/-- A document of the videos collection (fields used by the pipeline). -/
structure Video where
  id : Nat
  owner : Nat
  title : String
deriving DecidableEq, Repr

/-- Projection of the owner sub-lookup of the watch-history pipeline. -/
structure OwnerInfo where
  fullName : String
  username : String
  avatar : String
deriving DecidableEq, Repr

/-- A lookup result element of the watch-history pipeline: a video enriched
with its owner (first element of the owner lookup, `none` when the owner no
longer exists). -/
structure VideoWithOwner where
  id : Nat
  owner : Option OwnerInfo
  title : String
deriving DecidableEq, Repr

/-- The inner pipeline: lookup of the video owner among users, projected to
fullName/username/avatar, then `$addFields owner: $first`. -/
def lookupOwner (db : Db) (ownerId : Nat) : Option OwnerInfo :=
  List.head? (List.map
    (fun u => { fullName := u.fullName, username := u.username, avatar := u.avatar : OwnerInfo })
    (List.filter (fun u => u.id == ownerId) db))

/-- The `$lookup from videos` stage on the stored watchHistory array: MongoDB
matches foreign documents whose `_id` occurs in the local array and returns
them in foreign-collection order; the order of the local array is not
consulted. -/
def watchHistoryLookup (db : Db) (videos : List Video) (ids : List Nat) :
    List VideoWithOwner :=
  List.map (fun v => { id := v.id, owner := lookupOwner db v.owner, title := v.title })
    (List.filter (fun v => List.contains ids v.id) videos)

/-- `getWatchHistory`: aggregation `$match _id` then the watchHistory
`$lookup`; the controller reads `user[0].watchHistory` from the aggregate
array, which crashes with a TypeError when the match produced nothing. -/
def getWatchHistory (db : Db) (videos : List Video) (userId : Nat) :
    Except Err (List VideoWithOwner) :=
  let aggregate := List.map (fun u => watchHistoryLookup db videos u.watchHistory)
    (List.filter (fun u => u.id == userId) db)
  match aggregate with
  | [] => .error (.typeError "Cannot read properties of undefined (reading watchHistory)")
  | first :: _ => .ok first

/-- Whether a controller result is a success. -/
def exceptOk {α : Type} : Except Err α → Bool
  | .ok _ => true
  | .error _ => false

/-- Status code of a controller result: `none` on success, the statusCode of
the error otherwise. -/
def errCode {α : Type} : Except Err α → Option Nat
  | .ok _ => none
  | .error e => e.statusCodeField

theorem findById_id {db : Db} {uid : Nat} {u : UserRec}
    (h : findById db uid = some u) : u.id = uid := by
  have hp := List.find?_some h
  exact eq_of_beq hp

theorem findById_map {db : Db} {uid : Nat} {g : UserRec → UserRec}
    (hg : ∀ v : UserRec, v.id = uid → (g v).id = uid) {u : UserRec}
    (h : findById db uid = some u) :
    findById (List.map (fun v => if v.id == uid then g v else v) db) uid = some (g u) := by
  induction db with
  | nil => simp [findById] at h
  | cons v rest ih =>
      by_cases hv : v.id = uid
      · have hb : (v.id == uid) = true := beq_iff_eq.mpr hv
        have hu : u = v := by
          simp only [findById, List.find?, hb] at h
          exact (Option.some_inj.mp h).symm
        subst hu
        have hgid : ((g u).id == uid) = true := beq_iff_eq.mpr (hg u hv)
        simp only [findById, List.map_cons, hb, if_true, List.find?, hgid]
      · have hb : (v.id == uid) = false := by simp [hv]
        have h' : findById rest uid = some u := by
          simpa only [findById, List.find?, hb] using h
        simpa only [findById, List.map_cons, hb, Bool.false_eq_true, if_false,
          List.find?] using ih h'

theorem saveUser_eq_map {db : Db} {u' : UserRec} {uid : Nat} (hid : u'.id = uid) :
    saveUser db u' = List.map (fun v => if v.id == uid then u' else v) db := by
  subst hid
  rfl

theorem findByUsernameOrEmail_none_none (db : Db) :
    findByUsernameOrEmail db none none = none := by
  induction db with
  | nil => rfl
  | cons v rest ih =>
      simpa only [findByUsernameOrEmail, List.find?_cons] using ih

theorem jwtVerify_ok_payload {t : Token} {secret : String} {now : Nat} {p : Payload}
    (h : jwtVerify t secret now = .ok p) : p = t.payload := by
  unfold jwtVerify at h
  split at h
  · exact absurd h (by simp)
  · split at h
    · exact absurd h (by simp)
    · exact ((Except.ok.injEq _ _).mp h).symm

theorem generate_error_db {cfg : Cfg} {db : Db} {now uid : Nat} {db' : Db} {e : Err}
    (h : generateAccessAndRefereshTokens cfg db now uid = (db', .error e)) : db' = db := by
  unfold generateAccessAndRefereshTokens at h
  split at h
  · exact (((Prod.mk.injEq _ _ _ _).mp h).left).symm
  · exact absurd ((Prod.mk.injEq _ _ _ _).mp h).right (by simp)

theorem generate_ok_spec {cfg : Cfg} {db : Db} {now uid : Nat} {db' : Db} {a r : Token}
    (h : generateAccessAndRefereshTokens cfg db now uid = (db', .ok (a, r))) :
    r.iat = now ∧ r.payload.userId = uid ∧
      ∃ u', findById db' uid = some u' ∧ u'.refreshToken = some r := by
  unfold generateAccessAndRefereshTokens at h
  split at h
  case h_1 => exact absurd ((Prod.mk.injEq _ _ _ _).mp h).right (by simp)
  case h_2 u hfind =>
    obtain ⟨hdb, hok⟩ := (Prod.mk.injEq _ _ _ _).mp h
    obtain ⟨ha, hr⟩ := (Prod.mk.injEq _ _ _ _).mp ((Except.ok.injEq _ _).mp hok)
    subst hr
    have hid : u.id = uid := findById_id hfind
    refine ⟨rfl, by simpa [generateRefreshToken] using hid,
      { u with refreshToken := some (generateRefreshToken cfg u now) }, ?_, rfl⟩
    have hgid : ({ u with refreshToken := some (generateRefreshToken cfg u now) } : UserRec).id = uid := by
      simpa using hid
    have hmap := findById_map
      (g := fun _ => ({ u with refreshToken := some (generateRefreshToken cfg u now) } : UserRec))
      (fun v _ => hgid) hfind
    rw [← hdb, saveUser_eq_map hgid]
    simpa using hmap

theorem wrap401_code (e : Err) : ∃ m, wrap401 e = .api 401 m := by
  unfold wrap401
  exact ⟨_, rfl⟩

theorem refresh_error_code {cfg : Cfg} {db : Db} {now : Nat} {ck bd : Option Token} {e : Err}
    (h : (refreshAccessToken cfg db now ck bd).2 = .error e) : ∃ m, e = .api 401 m := by
  unfold refreshAccessToken at h
  split at h
  · exact ⟨_, (Except.error.injEq _ _).mp h.symm⟩
  · split at h
    · obtain ⟨m, hm⟩ := wrap401_code (.typeError (by assumption : String) )
      exact ⟨m, by simp_all⟩
    · split at h
      · obtain ⟨m, hm⟩ := wrap401_code (.api 401 "Invalid refresh token")
        exact ⟨m, by simp_all⟩
      · split at h
        · obtain ⟨m, hm⟩ := wrap401_code (.api 401 "Refresh token is expired or used")
          exact ⟨m, by simp_all⟩
        · split at h
          · next e' heq =>
              obtain ⟨m, hm⟩ := wrap401_code e'
              exact ⟨m, by simp_all⟩
          · simp_all

theorem refresh_401_of_no_match {cfg : Cfg} {db : Db} (now : Nat) {t : Token}
    (h : ∀ u : UserRec, findById db t.payload.userId = some u → u.refreshToken ≠ some t) :
    errCode (refreshAccessToken cfg db now (some t) none).2 = some 401 := by
  unfold refreshAccessToken
  simp only [Option.orElse_none, Option.some_orElse]
  cases hv : jwtVerify t cfg.refreshTokenSecret now with
  | error m => simp [wrap401, errCode, Err.statusCodeField]
  | ok p =>
      have hp : p = t.payload := jwtVerify_ok_payload hv
      subst hp
      cases hf : findById db t.payload.userId with
      | none => simp [hf, wrap401, errCode, Err.statusCodeField]
      | some u =>
          have hne : u.refreshToken ≠ some t := h u hf
          simp [hf, hne, wrap401, errCode, Err.statusCodeField]

theorem refresh_ok_iff (cfg : Cfg) (db : Db) (now : Nat) (ck bd : Option Token) :
    exceptOk (refreshAccessToken cfg db now ck bd).2 = true ↔
      ∃ t p u, (ck <|> bd) = some t ∧
        jwtVerify t cfg.refreshTokenSecret now = .ok p ∧
        findById db p.userId = some u ∧ u.refreshToken = some t := by
  constructor
  · intro h
    unfold refreshAccessToken at h
    split at h
    case h_1 hnone => simp [exceptOk] at h
    case h_2 t hsome =>
      split at h
      case h_1 => simp [exceptOk] at h
      case h_2 p hv =>
        split at h
        case h_1 => simp [exceptOk] at h
        case h_2 u hf =>
          split at h
          case isTrue => simp [exceptOk] at h
          case isFalse hne =>
            exact ⟨t, p, u, hsome, hv, hf, not_ne_iff.mp hne⟩
  · rintro ⟨t, p, u, hsome, hv, hf, hstored⟩
    have hp : p = t.payload := jwtVerify_ok_payload hv
    subst hp
    have hid : u.id = t.payload.userId := findById_id hf
    have hf' : findById db u.id = some u := by rw [hid]; exact hf
    unfold refreshAccessToken
    simp only [hsome, hv, hf]
    rw [if_neg (not_ne_iff.mpr hstored)]
    unfold generateAccessAndRefereshTokens
    simp only [hf']
    simp [exceptOk]

theorem find?_eq_head_filter {α : Type} (p : α → Bool) (l : List α) :
    List.find? p l = List.head? (List.filter p l) := by
  induction l with
  | nil => rfl
  | cons a l ih =>
      by_cases h : p a = true
      · rw [List.filter_cons, if_pos h]
        simp only [List.find?, h, List.head?]
      · have hb : p a = false := by simpa using h
        rw [List.filter_cons, if_neg (by simp [hb]), ← ih]
        simp only [List.find?, hb]

theorem nodeResolveString_ne (s : String) : nodeResolveString s ≠ "" := by
  unfold nodeResolveString
  split
  · decide
  · split
    · next h1 h2 => exact h1
    · intro hc
      have hlen := congrArg String.length hc
      rw [String.length_append, String.length_append] at hlen
      have h0 : ("" : String).length = 0 := rfl
      have h4 : processCwd.length = 4 := rfl
      have h1' : ("/" : String).length = 1 := rfl
      rw [h0, h4, h1'] at hlen
      omega

/-- The TypeError raised by `path.resolve` on a missing file path. -/
def resolveErr : Err := .typeError "The path argument must be of type string"

theorem pathResolve_ok_ne {p : Option String} {x : String}
    (h : pathResolve p = .ok x) : x ≠ "" := by
  cases p with
  | none => simp [pathResolve] at h
  | some s =>
      have hx : nodeResolveString s = x := by simpa [pathResolve] using h
      rw [← hx]
      exact nodeResolveString_ne s

theorem pathResolve_error_type {p : Option String} {e : Err}
    (h : pathResolve p = .error e) : e = resolveErr := by
  cases p with
  | none => simpa [pathResolve, resolveErr, eq_comm] using h
  | some s => simp [pathResolve] at h

theorem stale_refresh_fails {cfg : Cfg} {db' : Db} {r : Token} {u' : UserRec}
    (hfind : findById db' r.payload.userId = some u') (hstored : u'.refreshToken = some r) :
    ∀ told : Token, told.payload.userId = r.payload.userId → told ≠ r →
      ∀ now' : Nat, errCode (refreshAccessToken cfg db' now' (some told) none).2 = some 401 := by
  intro told hpid hne now'
  apply refresh_401_of_no_match
  intro u hu
  rw [hpid, hfind] at hu
  have huu : u' = u := Option.some_inj.mp hu
  rw [← huu, hstored]
  intro hc
  exact hne (Option.some_inj.mp hc).symm

theorem rotation_spec {cfg : Cfg} {db : Db} {now uid : Nat} {db' : Db} {a r : Token}
    (h : generateAccessAndRefereshTokens cfg db now uid = (db', .ok (a, r))) :
    r.iat = now ∧
      ∃ u', findById db' r.payload.userId = some u' ∧ u'.refreshToken = some r ∧
        ∀ told : Token, told.payload.userId = r.payload.userId → told ≠ r →
          ∀ now' : Nat, errCode (refreshAccessToken cfg db' now' (some told) none).2 = some 401 := by
  obtain ⟨hiat, hpid, u', hfind, hstored⟩ := generate_ok_spec h
  rw [← hpid] at hfind
  exact ⟨hiat, u', hfind, hstored, stale_refresh_fails hfind hstored⟩

theorem loginUser_ok_generate {cfg : Cfg} {db : Db} {now : Nat} {req : LoginReq}
    {db' : Db} {a r : Token}
    (h : loginUser cfg db now req = (db', .ok (a, r))) :
    ∃ uid, generateAccessAndRefereshTokens cfg db now uid = (db', .ok (a, r)) := by
  unfold loginUser at h
  split at h
  · simp [Prod.mk.injEq] at h
  · split at h
    · simp [Prod.mk.injEq] at h
    · split at h
      · simp [Prod.mk.injEq] at h
      · split at h
        · simp [Prod.mk.injEq] at h
        · next db1 a1 r1 heq =>
            obtain ⟨hdb, hok⟩ := (Prod.mk.injEq _ _ _ _).mp h
            obtain ⟨ha, hr⟩ := (Prod.mk.injEq _ _ _ _).mp ((Except.ok.injEq _ _).mp hok)
            rw [hdb, ha, hr] at heq
            exact ⟨_, heq⟩

theorem refresh_ok_generate {cfg : Cfg} {db : Db} {now : Nat} {ck bd : Option Token}
    {db' : Db} {a r : Token}
    (h : refreshAccessToken cfg db now ck bd = (db', .ok (a, r))) :
    ∃ uid, generateAccessAndRefereshTokens cfg db now uid = (db', .ok (a, r)) := by
  unfold refreshAccessToken at h
  split at h
  · simp [Prod.mk.injEq] at h
  · split at h
    · simp [Prod.mk.injEq] at h
    · split at h
      · simp [Prod.mk.injEq] at h
      · split at h
        · simp [Prod.mk.injEq] at h
        · split at h
          · simp [Prod.mk.injEq] at h
          · next db1 a1 r1 heq =>
              obtain ⟨hdb, hok⟩ := (Prod.mk.injEq _ _ _ _).mp h
              obtain ⟨ha, hr⟩ := (Prod.mk.injEq _ _ _ _).mp ((Except.ok.injEq _ _).mp hok)
              rw [hdb, ha, hr] at heq
              exact ⟨_, heq⟩

theorem refresh_error_leaves_db (cfg : Cfg) (db : Db) (now : Nat) (ck bd : Option Token) :
    exceptOk (refreshAccessToken cfg db now ck bd).2 = false →
    (refreshAccessToken cfg db now ck bd).1 = db := by
  unfold refreshAccessToken
  split
  · intro _; rfl
  · split
    · intro _; rfl
    · split
      · intro _; rfl
      · split
        · intro _; rfl
        · split
          · next db1 e1 heq =>
              intro _
              exact generate_error_db heq
          · next db1 a1 r1 heq =>
              intro hc
              simp [exceptOk] at hc

theorem verifyJWT_ok_iff (cfg : Cfg) (db : Db) (now : Nat) (ck hd : Option Token) :
    exceptOk (verifyJWT cfg db now ck hd) = true ↔
      ∃ t p u, (ck <|> hd) = some t ∧
        jwtVerify t cfg.accessTokenSecret now = .ok p ∧ findById db p.userId = some u := by
  constructor
  · intro h
    unfold verifyJWT at h
    split at h
    · simp [exceptOk] at h
    · next t hsome =>
        split at h
        · simp [exceptOk] at h
        · next p hv =>
            split at h
            · simp [exceptOk] at h
            · next u hf => exact ⟨t, p, u, hsome, hv, hf⟩
  · rintro ⟨t, p, u, hsome, hv, hf⟩
    unfold verifyJWT
    simp only [hsome, hv, hf]
    rfl

theorem verifyJWT_error_code {cfg : Cfg} {db : Db} {now : Nat} {ck hd : Option Token} {e : Err}
    (h : verifyJWT cfg db now ck hd = .error e) : ∃ m, e = .api 401 m := by
  unfold verifyJWT at h
  split at h
  · exact ⟨_, ((Except.error.injEq _ _).mp h).symm⟩
  · split at h
    · exact ⟨_, ((Except.error.injEq _ _).mp h).symm⟩
    · split at h
      · exact ⟨_, ((Except.error.injEq _ _).mp h).symm⟩
      · simp at h

/-- Sample environment configuration. -/
def cfg0 : Cfg :=
  { accessTokenSecret := "access-secret", refreshTokenSecret := "refresh-secret",
    accessTokenExpiry := 900, refreshTokenExpiry := 864000 }

/-- A refresh token for user 1 issued at time 0 under `cfg0`. -/
def rtok0 : Token :=
  { payload := { userId := 1, email := none, username := none, fullName := none },
    secret := "refresh-secret", iat := 0, lifetime := 864000 }

/-- A refresh token for user 1 issued at time 3 under `cfg0`. -/
def rtok3 : Token :=
  { payload := { userId := 1, email := none, username := none, fullName := none },
    secret := "refresh-secret", iat := 3, lifetime := 864000 }

/-- A registered user holding `rtok0` as the stored refresh token. -/
def user0 : UserRec :=
  { id := 1, username := "alice", email := "alice@example.com", fullName := "Alice Doe",
    password := bcryptHash "correct-pw", avatar := "http://cdn/av.png", coverImage := "",
    refreshToken := some rtok0, watchHistory := [] }

/-- A one-user database. -/
def db0 : Db := [user0]

/-- A cloudinary stub that accepts every upload. -/
def uploadAlways : String → Option UploadedFile :=
  fun s => some { url := "http://cdn/" ++ s }

/-- C1: refreshAccessToken succeeds, issuing a token pair, exactly when the
presented refresh token verifies against the refresh secret (signature and
expiry) and equals the refresh token stored on the matched user record; in
every other case (token missing, verification failure, no matching user, or
mismatch with the stored token) the handler fails closed with a 401 error. -/
theorem C1_refresh_fails_closed (cfg : Cfg) (db : Db) (now : Nat) (ck bd : Option Token) :
    (exceptOk (refreshAccessToken cfg db now ck bd).2 = true ↔
      ∃ t p u, (ck <|> bd) = some t ∧
        jwtVerify t cfg.refreshTokenSecret now = .ok p ∧
        findById db p.userId = some u ∧ u.refreshToken = some t) ∧
    (∀ e, (refreshAccessToken cfg db now ck bd).2 = .error e → ∃ m, e = .api 401 m) :=
  ⟨refresh_ok_iff cfg db now ck bd, fun _ h => refresh_error_code h⟩

/-- C1 witness: with the stored token presented the refresh succeeds, and the
missing-token request produces a 401-shaped error. -/
theorem C1_refresh_fails_closed_witness :
    exceptOk (refreshAccessToken cfg0 db0 5 (some rtok0) none).2 = true ∧
    ∃ m, (Err.api 401 "unauthorized request") = Err.api 401 m :=
  ⟨(C1_refresh_fails_closed cfg0 db0 5 (some rtok0) none).1.mpr
      ⟨rtok0, rtok0.payload, user0, rfl, rfl, rfl, rfl⟩,
   (C1_refresh_fails_closed cfg0 db0 5 none none).2 (Err.api 401 "unauthorized request") rfl⟩

/-- C2: every successful login and every successful refresh stores the newly
issued refresh token (with the current issue time) on the user record, so a
token different from the newly issued one, in particular any token issued
earlier, no longer matches the stored one, and a later refresh presenting it
fails with a 401 error. -/
theorem C2_single_session_rotation :
    (∀ (cfg : Cfg) (db : Db) (now : Nat) (req : LoginReq) (db' : Db) (a r : Token),
        loginUser cfg db now req = (db', .ok (a, r)) →
          r.iat = now ∧
          ∃ u', findById db' r.payload.userId = some u' ∧ u'.refreshToken = some r ∧
            ∀ told : Token, told.payload.userId = r.payload.userId → told ≠ r →
              ∀ now' : Nat,
                errCode (refreshAccessToken cfg db' now' (some told) none).2 = some 401) ∧
    (∀ (cfg : Cfg) (db : Db) (now : Nat) (ck bd : Option Token) (db' : Db) (a r : Token),
        refreshAccessToken cfg db now ck bd = (db', .ok (a, r)) →
          r.iat = now ∧
          ∃ u', findById db' r.payload.userId = some u' ∧ u'.refreshToken = some r ∧
            ∀ told : Token, told.payload.userId = r.payload.userId → told ≠ r →
              ∀ now' : Nat,
                errCode (refreshAccessToken cfg db' now' (some told) none).2 = some 401) := by
  constructor
  · intro cfg db now req db' a r h
    obtain ⟨uid, hgen⟩ := loginUser_ok_generate h
    exact rotation_spec hgen
  · intro cfg db now ck bd db' a r h
    obtain ⟨uid, hgen⟩ := refresh_ok_generate h
    exact rotation_spec hgen

/-- C2 witness: a concrete login at time 3 stores the time-3 refresh token on
the user record, and the older time-0 token then fails to refresh. -/
theorem C2_single_session_rotation_witness :
    rtok3.iat = 3 ∧
    ∃ u', findById (saveUser db0 { user0 with refreshToken := some rtok3 })
            rtok3.payload.userId = some u' ∧
      u'.refreshToken = some rtok3 ∧
      ∀ told : Token, told.payload.userId = rtok3.payload.userId → told ≠ rtok3 →
        ∀ now' : Nat,
          errCode (refreshAccessToken cfg0
            (saveUser db0 { user0 with refreshToken := some rtok3 })
            now' (some told) none).2 = some 401 :=
  C2_single_session_rotation.1 cfg0 db0 3
    { username := some "alice", email := none, password := "correct-pw" }
    (saveUser db0 { user0 with refreshToken := some rtok3 })
    (generateAccessToken cfg0 user0 3) rtok3 rfl

/-- C3: logoutUser removes the stored refresh token from the authenticated
user record and clears both token cookies, and afterwards any refresh request
presenting a refresh token for that user fails with a 401 error. -/
theorem C3_logout_invalidates_refresh (cfg : Cfg) (db : Db) (uid : Nat) (u : UserRec)
    (t : Token) (now' : Nat)
    (hu : findById db uid = some u) (hp : t.payload.userId = uid) :
    findById (logoutUser db uid).1 uid = some { u with refreshToken := none } ∧
    (logoutUser db uid).2.clearedCookies = ["accessToken", "refreshToken"] ∧
    errCode (refreshAccessToken cfg (logoutUser db uid).1 now' (some t) none).2 = some 401 := by
  have hmap := findById_map (g := fun v => { v with refreshToken := none })
    (fun v hv => by simpa using hv) hu
  have h1 : findById (logoutUser db uid).1 uid = some { u with refreshToken := none } := by
    simpa [logoutUser] using hmap
  refine ⟨h1, rfl, ?_⟩
  apply refresh_401_of_no_match
  intro w hw
  rw [hp, h1] at hw
  have hww : ({ u with refreshToken := none } : UserRec) = w := Option.some_inj.mp hw
  rw [← hww]
  simp

/-- C3 witness: logging out user 1 of the sample database clears the stored
token and the previously stored refresh token is afterwards rejected. -/
theorem C3_logout_invalidates_refresh_witness :
    findById (logoutUser db0 1).1 1 = some { user0 with refreshToken := none } ∧
    (logoutUser db0 1).2.clearedCookies = ["accessToken", "refreshToken"] ∧
    errCode (refreshAccessToken cfg0 (logoutUser db0 1).1 7 (some rtok0) none).2 = some 401 :=
  C3_logout_invalidates_refresh cfg0 db0 1 user0 rtok0 7 rfl rfl

/-- C9: whenever refreshAccessToken returns an error (missing token, failed
verification, no matching user, or stored-token mismatch), the database is
returned unchanged: the token rotation runs only after all checks pass. -/
theorem C9_refresh_atomic_on_failure (cfg : Cfg) (db : Db) (now : Nat)
    (ck bd : Option Token) (e : Err)
    (h : (refreshAccessToken cfg db now ck bd).2 = .error e) :
    (refreshAccessToken cfg db now ck bd).1 = db := by
  apply refresh_error_leaves_db
  rw [h]
  rfl

/-- C9 witness: the token-missing refresh rejection leaves the database as it
was. -/
theorem C9_refresh_atomic_on_failure_witness :
    (refreshAccessToken cfg0 db0 5 none none).1 = db0 :=
  C9_refresh_atomic_on_failure cfg0 db0 5 none none (.api 401 "unauthorized request") rfl

/-- C5: a login request that finds an existing user but carries a password
failing the bcrypt check is rejected with ApiError 401 and no tokens are
issued, the database staying unchanged. -/
theorem C5_wrong_password_401 (cfg : Cfg) (db : Db) (now : Nat) (req : LoginReq) (u : UserRec)
    (hfind : findByUsernameOrEmail db req.username req.email = some u)
    (hpw : u.isPasswordCorrect req.password = false) :
    loginUser cfg db now req =
      (db, .error (.api 401 "Invalid user credentials, Wrong Password!!!!!!")) := by
  unfold loginUser
  split
  · next hboth =>
      obtain ⟨h1, h2⟩ := hboth
      rw [h1, h2, findByUsernameOrEmail_none_none] at hfind
      exact absurd hfind (by simp)
  · simp only [hfind]
    rw [if_pos hpw]

/-- C5 witness: the sample user with a wrong password is rejected with 401. -/
theorem C5_wrong_password_401_witness :
    loginUser cfg0 db0 0 { username := some "alice", email := none, password := "wrong" } =
      (db0, .error (.api 401 "Invalid user credentials, Wrong Password!!!!!!")) :=
  C5_wrong_password_401 cfg0 db0 0
    { username := some "alice", email := none, password := "wrong" } user0 rfl rfl

/-- A register request duplicating the sample user email but with an empty
fullName field. -/
def dupEmptyReq : RegisterReq :=
  { fullName := some "", email := some "alice@example.com", username := some "bob",
    password := some "pw", avatarFile := some "public/temp/a.png", coverImageFile := none }

/-- C4 counterexample: a register request whose email duplicates an existing
user but which also carries an empty fullName fails with ApiError 400, not
with the claimed conflict error 409. -/
theorem C4_duplicate_conflict_counterexample :
    (∃ u, u ∈ db0 ∧ some u.email = dupEmptyReq.email) ∧
    (registerUser db0 uploadAlways dupEmptyReq).2 =
      .error (.api 400 "All fields are required") ∧
    errCode (registerUser db0 uploadAlways dupEmptyReq).2 ≠ some 409 := by
  refine ⟨⟨user0, by simp [db0], rfl⟩, rfl, by decide⟩

/-- C4 (amended): every register request that passes the non-empty-field
check and whose username or email equals that of an existing user record is
rejected with ApiError 409 and the database is unchanged. -/
theorem C4_duplicate_conflict (db : Db) (upload : String → Option UploadedFile)
    (req : RegisterReq)
    (hfields : someFieldEmpty req = false)
    (hdup : ∃ u, u ∈ db ∧ (req.username = some u.username ∨ req.email = some u.email)) :
    registerUser db upload req =
      (db, .error (.api 409 "User with email or username already exists")) := by
  have hsome : (findByUsernameOrEmail db req.username req.email).isSome := by
    rw [findByUsernameOrEmail, List.find?_isSome]
    obtain ⟨u, hm, hor⟩ := hdup
    refine ⟨u, hm, ?_⟩
    cases hor with
    | inl h => simp [h]
    | inr h => simp [h]
  unfold registerUser
  simp only [hfields, Bool.false_eq_true, if_false]
  cases hfind : findByUsernameOrEmail db req.username req.email with
  | none => rw [hfind] at hsome; exact absurd hsome (by simp)
  | some w => simp [hfind]

/-- C4 witness: a well-formed register request duplicating the sample user
email is rejected with 409. -/
theorem C4_duplicate_conflict_witness :
    registerUser db0 uploadAlways
      { fullName := some "Bob B", email := some "alice@example.com", username := some "bob",
        password := some "pw", avatarFile := some "public/temp/a.png",
        coverImageFile := none } =
      (db0, .error (.api 409 "User with email or username already exists")) :=
  C4_duplicate_conflict db0 uploadAlways _ rfl ⟨user0, by simp [db0], Or.inr rfl⟩

/-- C6 counterexample: three of the endpoints listed by the claim — register,
login and refresh-token — carry no verifyJWT middleware in their chains. -/
theorem C6_all_guarded_counterexample :
    List.map Route.path (List.filter (fun r => !(Route.guarded r)) userRoutes) =
      ["/register", "/login", "/refresh-token"] := by
  decide

/-- C6 (amended): exactly the logout, change-password, current-user,
update-account, avatar, cover-image, channel-profile and watch-history routes
are guarded by verifyJWT; verifyJWT succeeds exactly when the request carries
a token (accessToken cookie first, else Bearer header) that verifies against
the access secret and matches a user, and every rejection is a 401 error. -/
theorem C6_guarded_routes :
    (List.map Route.path (List.filter Route.guarded userRoutes) =
      ["/logout", "/change-password", "/current-user", "/update-account",
       "/avatar", "/cover-image", "/c/:username", "/history"]) ∧
    (∀ (cfg : Cfg) (db : Db) (now : Nat) (ck hd : Option Token),
      (exceptOk (verifyJWT cfg db now ck hd) = true ↔
        ∃ t p u, (ck <|> hd) = some t ∧
          jwtVerify t cfg.accessTokenSecret now = .ok p ∧ findById db p.userId = some u) ∧
      (∀ e, verifyJWT cfg db now ck hd = .error e → ∃ m, e = .api 401 m)) := by
  refine ⟨by decide, fun cfg db now ck hd => ⟨verifyJWT_ok_iff cfg db now ck hd, ?_⟩⟩
  intro e h
  exact verifyJWT_error_code h

/-- C6 witness: a request with no token at all is rejected by verifyJWT with
a 401-shaped error. -/
theorem C6_guarded_routes_witness :
    ∃ m, (Err.api 401 "Unauthorized request") = Err.api 401 m :=
  (C6_guarded_routes.2 cfg0 db0 0 none none).2 (Err.api 401 "Unauthorized request") rfl

/-- The ApiError thrown by loginUser on a wrong password. -/
def wrongPwErr : Err := .api 401 "Invalid user credentials, Wrong Password!!!!!!"

/-- C7 (code bug): the error-shape middleware is registered in app.js before
the user router, so an error passed to next by a route handler finds no error
middleware after the router and is answered by the Express built-in handler
with an HTML body, never by the JSON success:false shape the middleware would
produce. Exhibited on the wrong-password login error. -/
theorem C7_error_shape_unreachable :
    (∀ e, dispatchRouterError appStack e = expressDefaultHandler e) ∧
    (loginUser cfg0 db0 0 { username := some "alice", email := none, password := "wrong" }).2 =
      .error wrongPwErr ∧
    dispatchRouterError appStack wrongPwErr =
      { status := 401, body := .html "Invalid user credentials, Wrong Password!!!!!!" } ∧
    (∀ b m s, (dispatchRouterError appStack wrongPwErr).body ≠ RespBody.json b m s) := by
  have hb : (dispatchRouterError appStack wrongPwErr).body =
      RespBody.html "Invalid user credentials, Wrong Password!!!!!!" := rfl
  refine ⟨fun e => rfl, rfl, rfl, ?_⟩
  intro b m s h
  rw [hb] at h
  exact RespBody.noConfusion h

/-- C7 witness: the dispatch of a router error lands in the Express built-in
handler. -/
theorem C7_error_shape_unreachable_witness :
    dispatchRouterError appStack (Err.api 500 "boom") =
      expressDefaultHandler (Err.api 500 "boom") :=
  C7_error_shape_unreachable.1 (Err.api 500 "boom")

/-- Owner of the sample videos. -/
def historyOwner : UserRec :=
  { id := 9, username := "creator", email := "creator@example.com", fullName := "Creator C",
    password := bcryptHash "pw2", avatar := "av2", coverImage := "",
    refreshToken := none, watchHistory := [] }

/-- A viewer whose stored watch history lists video 2 before video 1. -/
def historyViewer : UserRec :=
  { id := 7, username := "viewer", email := "viewer@example.com", fullName := "Viewer V",
    password := bcryptHash "pw3", avatar := "av3", coverImage := "",
    refreshToken := none, watchHistory := [2, 1] }

/-- Users collection for the watch-history scenario. -/
def historyDb : Db := [historyViewer, historyOwner]

/-- Videos collection, stored with video 1 before video 2. -/
def videosColl : List Video :=
  [ { id := 1, owner := 9, title := "first" }, { id := 2, owner := 9, title := "second" } ]

/-- C8 counterexample: the viewer stores watchHistory [2, 1], but the lookup
returns the videos in collection order [1, 2], not in stored-list order. -/
theorem C8_history_order_counterexample :
    Option.map UserRec.watchHistory (findById historyDb 7) = some [2, 1] ∧
    Except.map (List.map VideoWithOwner.id) (getWatchHistory historyDb videosColl 7) =
      .ok [1, 2] ∧
    ([1, 2] : List Nat) ≠ [2, 1] := by
  refine ⟨rfl, rfl, by decide⟩

/-- C8 (amended): for an authenticated user found in the database,
getWatchHistory returns exactly the videos whose ids occur in the stored
watchHistory list, but in videos-collection order, not in the order of the
stored list. -/
theorem C8_history_membership (db : Db) (videos : List Video) (uid : Nat) (u : UserRec)
    (hu : findById db uid = some u) :
    getWatchHistory db videos uid = .ok (watchHistoryLookup db videos u.watchHistory) ∧
    List.map VideoWithOwner.id (watchHistoryLookup db videos u.watchHistory) =
      List.map Video.id (List.filter (fun v => List.contains u.watchHistory v.id) videos) := by
  have hfind : List.head? (List.filter (fun v => v.id == uid) db) = some u := by
    rw [← find?_eq_head_filter]
    exact hu
  constructor
  · unfold getWatchHistory
    cases hl : List.filter (fun v => v.id == uid) db with
    | nil => rw [hl] at hfind; exact absurd hfind (by simp)
    | cons w rest =>
        rw [hl] at hfind
        have hw : w = u := by simpa using hfind
        subst hw
        simp [hl]
  · unfold watchHistoryLookup
    rw [List.map_map]
    rfl

/-- C8 witness: on the concrete scenario the result is exactly the videos of
the stored list, in collection order. -/
theorem C8_history_membership_witness :
    getWatchHistory historyDb videosColl 7 =
      .ok (watchHistoryLookup historyDb videosColl historyViewer.watchHistory) ∧
    List.map VideoWithOwner.id (watchHistoryLookup historyDb videosColl
        historyViewer.watchHistory) =
      List.map Video.id (List.filter
        (fun v => List.contains historyViewer.watchHistory v.id) videosColl) :=
  C8_history_membership historyDb videosColl 7 historyViewer rfl

/-- C10: a register request passing the non-empty-field and duplicate checks
but carrying no avatar file makes the handler throw the path.resolve
TypeError before User.create is reached, leaving the database unchanged; and
no execution of registerUser can ever produce the guard error
ApiError(400, Avatar file path is required): that branch is unreachable. -/
theorem C10_avatar_guard_unreachable (db : Db) (upload : String → Option UploadedFile)
    (req : RegisterReq) :
    (req.avatarFile = none → someFieldEmpty req = false →
      findByUsernameOrEmail db req.username req.email = none →
      registerUser db upload req = (db, .error resolveErr)) ∧
    (registerUser db upload req).2 ≠ .error (.api 400 "Avatar file path is required") := by
  constructor
  · intro hav hfields hdup
    unfold registerUser
    simp only [hfields, Bool.false_eq_true, if_false, hdup, hav]
    rfl
  · unfold registerUser
    split
    · simp
    · split
      · simp
      · split
        · next e heq =>
            rw [pathResolve_error_type heq]
            simp [resolveErr]
        · next absAvatar heqAv =>
            split
            · next e heq =>
                rw [pathResolve_error_type heq]
                simp [resolveErr]
            · next absCover heqCov =>
                split
                · next hempty => exact absurd hempty (pathResolve_ok_ne heqAv)
                · cases hup : upload absAvatar with
                  | none => simp [hup]
                  | some av =>
                      simp only [hup]
                      split
                      · simp
                      · simp

/-- A register request with all text fields present but no files. -/
def noAvatarReq : RegisterReq :=
  { fullName := some "Bob B", email := some "bob@example.com", username := some "bob",
    password := some "pw", avatarFile := none, coverImageFile := none }

/-- C10 witness: a no-avatar register request on the empty database throws
the path.resolve TypeError and creates nothing. -/
theorem C10_avatar_guard_unreachable_witness :
    registerUser [] uploadAlways noAvatarReq = ([], .error resolveErr) :=
  (C10_avatar_guard_unreachable [] uploadAlways noAvatarReq).1 rfl rfl rfl
